import Mathlib

/-!
# Verification of the ResumeReviewer backend

Shallow embedding of `src/backend/main.py` (the `/analyze-resume` endpoint,
its PDF text extractor and model-response normalization) and of
`src/convert_jobs.py` (the CSV-to-JSON skill heuristic), together with
proofs settling the frozen claims about this code.

Python strings are embedded as `List Char`.  External library calls
(`pypdf`'s page parsing/extraction, `json.dumps`, the Gemini client call)
are modelled as explicit outcome parameters; the Python standard library
routines whose behaviour the code depends on (`str.strip`, `str.split`,
`re.findall`, `re.split`, `re.sub`, `json.loads` acceptance) are embedded
directly below.
-/

set_option maxRecDepth 16384

namespace ResumeReviewer

/-- Python strings are modelled as lists of characters. -/
abbrev Str := List Char

/-- Whitespace as removed by Python `str.strip()` / matched by `\s`
(ASCII subset: space, tab, newline, vertical tab, form feed, carriage
return). -/
def isPyWs (c : Char) : Bool :=
  c = ' ' || c = '\t' || c = '\n' || c = '\x0b' || c = '\x0c' || c = '\r'

/-- Python `str.lstrip()`. -/
def lstrip (l : Str) : Str := l.dropWhile isPyWs

/-- Python `str.rstrip()`. -/
def rstrip (l : Str) : Str := (l.reverse.dropWhile isPyWs).reverse

/-- Python `str.strip()`. -/
def pyStrip (l : Str) : Str := rstrip (lstrip l)

/-- Characters matched by the regex `[a-zA-Z0-9]` (main.py line 60). -/
def isAlnumAscii (c : Char) : Bool :=
  ('a' ≤ c && c ≤ 'z') || ('A' ≤ c && c ≤ 'Z') || ('0' ≤ c && c ≤ '9')

/-- The per-line filter of `extract_text_from_pdf` (main.py lines 57-68):
`clean_chars = len(re.findall(r'[a-zA-Z0-9]', line))`,
`total_chars = len(line.strip())`; the line is appended iff
`total_chars > 0` and (`ratio > 0.3` or `total_chars < 5`).
The Python comparison `clean_chars / total_chars > 0.3` is embedded with
denominators cleared (`10 * clean_chars > 3 * total_chars`, equivalent to
`clean_chars / total_chars > 3/10` over ℚ since `total_chars > 0`; see
`keepLine_ratio_iff`), keeping the definition kernel-evaluable. -/
def keepLine (line : Str) : Bool :=
  let clean_chars := (line.filter isAlnumAscii).length
  let total_chars := (pyStrip line).length
  if 0 < total_chars then
    decide (10 * clean_chars > 3 * total_chars) || decide (total_chars < 5)
  else
    false

/-- Per-page cleaning (main.py lines 55-68): `lines = page_text.split('\n')`
and the filtering loop building `cleaned_lines`. -/
def clean_page (page_text : Str) : List Str :=
  (page_text.splitOn '\n').filter keepLine

/-- The page loop of `extract_text_from_pdf` (main.py lines 50-70):
starting from `text = ""`, for every page whose `extract_text()` result is
truthy (not `None`, not empty), append
`"\n".join(cleaned_lines) + "\n"`.  A page's extraction result is
`none` for Python `None` and `some l` for a string. -/
def extract_pages (pages : List (Option Str)) : Str :=
  pages.foldl
    (fun text pt =>
      match pt with
      | none => text
      | some page_text =>
        if page_text = [] then text
        else text ++ (List.intercalate ['\n'] (clean_page page_text) ++ ['\n']))
    []

/-- What one page adds to the accumulated text in the loop of
`extract_text_from_pdf`: nothing for a falsy `extract_text()` result,
otherwise `"\n".join(cleaned_lines) + "\n"`. -/
def page_contribution (pt : Option Str) : Str :=
  match pt with
  | none => []
  | some page_text =>
    if page_text = [] then []
    else List.intercalate ['\n'] (clean_page page_text) ++ ['\n']

/-- `extract_text_from_pdf` (main.py lines 42-73).  The pypdf calls
(`PdfReader(io.BytesIO(pdf_file))` and each `page.extract_text()`) are an
external library; their joint outcome is the `pdf_parse` argument:
`Except.error msg` when they raise an exception with text `msg`, and
`Except.ok pages` with the per-page extraction results otherwise.  On an
exception the function raises `HTTPException(400, "Error reading PDF: " + str(e))`,
embedded as an `Except.error` carrying the status code and detail. -/
def extract_text_from_pdf (pdf_parse : Except Str (List (Option Str))) :
    Except (Nat × Str) Str :=
  match pdf_parse with
  | Except.error e => Except.error (400, "Error reading PDF: ".data ++ e)
  | Except.ok pages => Except.ok (extract_pages pages)

/-! ## Model of `json.loads` acceptance (Python `json` module)

`analyze_resume` only uses `json.loads` to decide whether the model output
is syntactically valid JSON (the parsed object is returned unmodified, and
`json.JSONDecodeError` is mapped to an HTTP 500).  The scanner below
follows `json/decoder.py` / `json/scanner.py` with the default arguments:
JSON whitespace is space/tab/newline/carriage-return, strings are
double-quoted with the standard escapes and no raw control characters
(`strict=True`), numbers follow `NUMBER_RE`, and the non-standard
constants `NaN`, `Infinity`, `-Infinity` are accepted. -/

/-- JSON whitespace (`json.decoder.WHITESPACE_STR`). -/
def jsonWsChar (c : Char) : Bool :=
  c = ' ' || c = '\t' || c = '\n' || c = '\r'

/-- Skip JSON whitespace. -/
def skipJsonWs (l : Str) : Str := l.dropWhile jsonWsChar

/-- ASCII decimal digit. -/
def isJsonDigit (c : Char) : Bool := '0' ≤ c && c ≤ '9'

/-- ASCII hexadecimal digit. -/
def isJsonHex (c : Char) : Bool :=
  isJsonDigit c || ('a' ≤ c && c ≤ 'f') || ('A' ≤ c && c ≤ 'F')

/-- Scan the rest of a JSON string after the opening quote
(`json.decoder.py_scanstring`, strict mode); returns the remainder after
the closing quote, or `none` if malformed. -/
def scanStringRest : Str → Option Str
  | [] => none
  | c :: rest =>
    if c = '"' then some rest
    else if c = '\\' then
      match rest with
      | [] => none
      | e :: rest2 =>
        if e = '"' || e = '\\' || e = '/' || e = 'b' || e = 'f' || e = 'n' || e = 'r' || e = 't' then
          scanStringRest rest2
        else if e = 'u' then
          match rest2 with
          | h1 :: h2 :: h3 :: h4 :: rest3 =>
            if isJsonHex h1 && isJsonHex h2 && isJsonHex h3 && isJsonHex h4 then
              scanStringRest rest3
            else none
          | _ => none
        else none
    else if c.toNat < 32 then none
    else scanStringRest rest

/-- Integer part of `json.scanner.NUMBER_RE`: `(0|[1-9]\d*)`. -/
def scanIntRest (l : Str) : Option Str :=
  match l with
  | [] => none
  | c :: rest =>
    if c = '0' then some rest
    else if isJsonDigit c then some (rest.dropWhile isJsonDigit)
    else none

/-- Optional fraction part of `NUMBER_RE`: `(\.\d+)?` (consumes nothing if
absent or malformed, matching greedy-regex behaviour). -/
def scanFracRest (l : Str) : Str :=
  match l with
  | '.' :: c :: rest =>
    if isJsonDigit c then List.dropWhile isJsonDigit (c :: rest)
    else '.' :: c :: rest
  | _ => l

/-- Exponent digits after `[eE][+-]?`; falls back to `orig` when no digit
follows (the regex then does not include an exponent part). -/
def scanExpDigits (orig : Str) (l : Str) : Str :=
  match l with
  | c :: rest =>
    if isJsonDigit c then List.dropWhile isJsonDigit (c :: rest) else orig
  | [] => orig

/-- Optional exponent part of `NUMBER_RE`: `([eE][-+]?\d+)?`. -/
def scanExpRest (l : Str) : Str :=
  match l with
  | e :: rest =>
    if e = 'e' || e = 'E' then
      match rest with
      | s :: rest2 =>
        if s = '+' || s = '-' then scanExpDigits (e :: rest) rest2
        else scanExpDigits (e :: rest) rest
      | [] => e :: rest
    else e :: rest
  | [] => l

/-- A full `NUMBER_RE` match starting at the head of `l`. -/
def scanNumberRest (l : Str) : Option Str :=
  let l1 := match l with
    | '-' :: rest => rest
    | _ => l
  (scanIntRest l1).map (fun r => scanExpRest (scanFracRest r))

mutual

/-- Scan one JSON value at the head of `l` (no leading whitespace),
following `json.scanner.py_make_scanner`.  Fuel-indexed to make the
nested recursion structural; `json_loads_ok` supplies ample fuel. -/
def parseJsonValue : Nat → Str → Option Str
  | 0, _ => none
  | Nat.succ fuel, l =>
    match l with
    | [] => none
    | c :: rest =>
      if c = '"' then scanStringRest rest
      else if c = '\x7b' then parseJsonMembersStart fuel (skipJsonWs rest)
      else if c = '[' then parseJsonItemsStart fuel (skipJsonWs rest)
      else if List.isPrefixOf "null".data l then some (l.drop 4)
      else if List.isPrefixOf "true".data l then some (l.drop 4)
      else if List.isPrefixOf "false".data l then some (l.drop 5)
      else if List.isPrefixOf "NaN".data l then some (l.drop 3)
      else if List.isPrefixOf "Infinity".data l then some (l.drop 8)
      else if List.isPrefixOf "-Infinity".data l then some (l.drop 9)
      else if c = '-' || isJsonDigit c then scanNumberRest l
      else none

/-- After `{` and whitespace: an empty object or the first member. -/
def parseJsonMembersStart : Nat → Str → Option Str
  | 0, _ => none
  | Nat.succ fuel, l =>
    match l with
    | [] => none
    | c :: rest =>
      if c = '\x7d' then some rest
      else parseJsonMember fuel (c :: rest)

/-- One `"key" : value` member followed by `,` (next member) or `}`. -/
def parseJsonMember : Nat → Str → Option Str
  | 0, _ => none
  | Nat.succ fuel, l =>
    match l with
    | '"' :: rest =>
      match scanStringRest rest with
      | none => none
      | some r1 =>
        match skipJsonWs r1 with
        | ':' :: r2 =>
          match parseJsonValue fuel (skipJsonWs r2) with
          | none => none
          | some r3 =>
            match skipJsonWs r3 with
            | ',' :: r4 =>
              match skipJsonWs r4 with
              | '"' :: r5 => parseJsonMember fuel ('"' :: r5)
              | _ => none
            | '\x7d' :: r4 => some r4
            | _ => none
        | _ => none
    | _ => none

/-- After `[` and whitespace: an empty array or the first item. -/
def parseJsonItemsStart : Nat → Str → Option Str
  | 0, _ => none
  | Nat.succ fuel, l =>
    match l with
    | ']' :: rest => some rest
    | _ => parseJsonItem fuel l

/-- One array item followed by `,` (next item) or `]`. -/
def parseJsonItem : Nat → Str → Option Str
  | 0, _ => none
  | Nat.succ fuel, l =>
    match parseJsonValue fuel l with
    | none => none
    | some r1 =>
      match skipJsonWs r1 with
      | ',' :: r2 => parseJsonItem fuel (skipJsonWs r2)
      | ']' :: r2 => some r2
      | _ => none

end

/-- Whether `json.loads` accepts `s`: one value surrounded only by
whitespace (`json.decoder.JSONDecoder.decode`). -/
def json_loads_ok (s : Str) : Bool :=
  match parseJsonValue (3 * s.length + 3) (skipJsonWs s) with
  | some rest => (skipJsonWs rest).isEmpty
  | none => false

/-- Model of `json.loads` as used by the endpoint: the parsed object is
returned unmodified and is carried here as its source text; a parse
failure is `none` (Python: `json.JSONDecodeError`). -/
def json_loads (s : Str) : Option Str :=
  if json_loads_ok s then some s else none

/-! ## Response normalization and the `/analyze-resume` endpoint -/

/-- The leading fence marker checked first (main.py line 171). -/
def fence_json_marker : Str := "```json".data

/-- The bare fence marker (main.py lines 173 and 175). -/
def fence_marker : Str := "```".data

/-- The response cleaning of `analyze_resume` (main.py lines 170-178):
`response_text = response.text.strip()`, strip a leading ```` ```json ````
(7 characters), then a leading ```` ``` ```` (3 characters), then a
trailing ```` ``` ````, and finally the argument of `json.loads` is
`response_text.strip()`. -/
def normalizeRaw (raw : Str) : Str :=
  let t0 := pyStrip raw
  let t1 := if fence_json_marker.isPrefixOf t0 then t0.drop 7 else t0
  let t2 := if fence_marker.isPrefixOf t1 then t1.drop 3 else t1
  let t3 := if fence_marker.isSuffixOf t2 then t2.take (t2.length - 3) else t2
  pyStrip t3

/-- A job-context entry (structure of `jobs_context.json`, produced by
`src/convert_jobs.py`; spec section 3). -/
structure JobContextEntry where
  job_title : Str
  company_name : Str
  required_skills : Str
deriving DecidableEq

/-- The display form of the company name in the prompt (main.py line 108):
`company_name if company_name else "Not Specified"` — Python truthiness,
so both `None` and the empty string give the placeholder. -/
def companyDisplay (company_name : Option Str) : Str :=
  match company_name with
  | none => "Not Specified".data
  | some c => if c = [] then "Not Specified".data else c

/-- Prompt template before `{general_context_str}` (main.py lines 99-105). -/
def promptPart1 : String :=
  "\n" ++
  "    Analyze the following resume text against the provided Job Description. \n" ++
  "    \n" ++
  "    **Goal:** Provide a comprehensive, structured review similar to professional resume audit platforms.\n" ++
  "\n" ++
  "    **General Industry Job Context (JSON):**\n" ++
  "    "

/-- Prompt template between `{general_context_str}` and the company name
(main.py lines 105-108). -/
def promptPart2 : String :=
  "\n\n    **Specific Job Description:**\n    Company: "

/-- Prompt template between the company name and `{job_description}`
(main.py lines 108-110). -/
def promptPart3 : String :=
  "\n    Description:\n    "

/-- Prompt template between `{job_description}` and `{resume_text}`
(main.py lines 110-113). -/
def promptPart4 : String :=
  "\n\n    **Resume Text for Analysis:**\n    "

/-- Prompt template after `{resume_text}` (main.py lines 113-161; `{{` and
`}}` in the Python f-string denote literal braces, written `\x7b`/`\x7d`
here). -/
def promptPart5 : String :=
  "\n\n    ---\n\n    **Output Format:**\n" ++
  "    Return a **strictly valid JSON object** with the following structure:\n" ++
  "    \x7b\n" ++
  "        \"match_score\": 85,\n" ++
  "        \"sub_scores\": \x7b\n" ++
  "            \"structure\": \x7b\"score\": 15, \"max\": 20\x7d,\n" ++
  "            \"content\": \x7b\"score\": 45, \"max\": 60\x7d,\n" ++
  "            \"tailoring\": \x7b\"level\": \"High\", \"feedback\": \"Well matched to keywords\"\x7d\n" ++
  "        \x7d,\n" ++
  "        \"checklist\": [\n" ++
  "            \x7b\n" ++
  "                \"category\": \"Resume Format\",\n" ++
  "                \"items\": [\n" ++
  "                    \x7b\"name\": \"Length\", \"status\": \"pass\", \"score\": \"+10 pts\", \"detail\": \"1 page, perfect length.\"\x7d,\n" ++
  "                    \x7b\"name\": \"Formatting\", \"status\": \"fail\", \"score\": \"-5 pts\", \"detail\": \"Inconsistent font sizes.\"\x7d\n" ++
  "                ]\n" ++
  "            \x7d,\n" ++
  "            \x7b\n" ++
  "                \"category\": \"Essential Sections\",\n" ++
  "                \"items\": [\n" ++
  "                    \x7b\"name\": \"Summary\", \"status\": \"warn\", \"score\": \"-5 pts\", \"detail\": \"Present but generic.\"\x7d,\n" ++
  "                    \x7b\"name\": \"Experience\", \"status\": \"pass\", \"score\": \"+10 pts\", \"detail\": \"Good use of action verbs.\"\x7d\n" ++
  "                ]\n" ++
  "            \x7d\n" ++
  "        ],\n" ++
  "        \"annotated_resume\": \"The full text of the resume with the annotations described below...\"\n" ++
  "    \x7d\n" ++
  "\n" ++
  "    **Annotation Instructions (Use these EXACT markers in 'annotated_resume'):**\n" ++
  "    1.  **Improvements (Orange):** Wrap text that needs quantification or better wording in `<<<` and `>>>`.\n" ++
  "    2.  **Removals (Red):** Wrap text that should be deleted in `~~~` and `~~~`.\n" ++
  "    3.  **Additions (Green):** Insert new suggested text wrapped in `+++` and `+++`.\n" ++
  "\n" ++
  "    **Critique Guidelines:**\n" ++
  "    *   **Structure:** Check length, readability, and section organization.\n" ++
  "    *   **Content:** Check for quantification, action verbs, and clarity.\n" ++
  "    *   **Tailoring:** Check for JD keywords and specific skills.\n" ++
  "    *   **Annotated Resume:** Rewrite the resume text. **Use Markdown for formatting:**\n" ++
  "        - Use `### ` for Section Headers (e.g. ### Experience).\n" ++
  "        - Use `**` for bolding key terms (e.g. **Candidate Name**).\n" ++
  "        - Use `- ` for bullet points.\n" ++
  "        - **Crucial:** Keep the annotation markers (`<<<`, `~~~`, `+++`) as defined previously.\n" ++
  "\n" ++
  "    **Important:** Do not use markdown formatting for the JSON (no ```json). Just return the raw JSON string.\n" ++
  "    "

/-- The prompt construction of `analyze_resume` (main.py lines 95-161):
the f-string with `{general_context_str}`, the company-name expression,
`{job_description}` and `{resume_text}` interpolated. -/
def build_prompt (general_context_str : Str) (company_name : Option Str)
    (job_description resume_text : Str) : Str :=
  promptPart1.data ++ general_context_str ++
  promptPart2.data ++ companyDisplay company_name ++
  promptPart3.data ++ job_description ++
  promptPart4.data ++ resume_text ++
  promptPart5.data

/-- An HTTP outcome of the endpoint: a 200 with the parsed JSON body
(carried as its normalized text), or an `HTTPException` with status code
and detail string. -/
inductive Response where
  | ok (body : Str)
  | err (status : Nat) (detail : Str)
deriving DecidableEq

/-- Starlette's `HTTPException.__str__`: `f"{status_code}: {detail}"`. -/
def httpExceptionStr (e : Nat × Str) : Str :=
  (Nat.repr e.fst).data ++ ": ".data ++ e.snd

/-- The `POST /analyze-resume` handler (main.py lines 75-184).

External effects are passed as parameters: `dumps` is `json.dumps`
applied to a list of job-context entries, `jobs_context` is the
`JOBS_CONTEXT` list loaded at startup, `pdf_parse` is the outcome of
reading the uploaded bytes with pypdf (see `extract_text_from_pdf`), and
`model_call` maps the constructed prompt to the outcome of
`client.models.generate_content` — `Except.ok` carrying `response.text`
or `Except.error` carrying `str(e)` of the raised exception.

Control flow of the source: the content-type check raises a 400; the
`try` around text extraction catches every exception — including the
`HTTPException(400, ...)` raised inside `extract_text_from_pdf` — and
re-raises it as a 500 whose detail embeds `str(e)`; the Gemini `try`
maps `json.JSONDecodeError` to a fixed 500 and any other exception to a
503 embedding `str(e)`. -/
def analyze_resume
    (dumps : List JobContextEntry → Str)
    (jobs_context : List JobContextEntry)
    (company_name : Option Str)
    (job_description : Str)
    (content_type : Str)
    (pdf_parse : Except Str (List (Option Str)))
    (model_call : Str → Except Str Str) : Response :=
  if content_type ≠ "application/pdf".data then
    Response.err 400 "Invalid file type. Only PDF files (application/pdf) are supported. DOC/DOCX files are not supported.".data
  else
    match extract_text_from_pdf pdf_parse with
    | Except.error e =>
      Response.err 500 ("Failed to process PDF: ".data ++ httpExceptionStr e)
    | Except.ok resume_text =>
      match model_call (build_prompt (dumps (jobs_context.take 50))
          company_name job_description resume_text) with
      | Except.error e =>
        Response.err 503 ("AI Service Unavailable: ".data ++ e)
      | Except.ok raw =>
        let response_text := normalizeRaw raw
        match json_loads response_text with
        | some parsed => Response.ok parsed
        | none => Response.err 500 "AI returned invalid JSON format.".data

/-! ## `src/convert_jobs.py`: the skill heuristic -/

/-- Delimiters of `re.split(r'[\n\r•·]+', description)` (convert_jobs.py
line 19). -/
def isJobDelim (c : Char) : Bool :=
  c = '\n' || c = '\r' || c = '•' || c = '·'

mutual

/-- `re.split` on runs of delimiters: collect the current maximal
delimiter-free segment. -/
def splitRunsGo : Str → List Str
  | [] => [[]]
  | c :: rest =>
    if isJobDelim c then [] :: splitRunsSkip rest
    else
      match splitRunsGo rest with
      | [] => [[c]]
      | seg :: segs => (c :: seg) :: segs

/-- `re.split` on runs of delimiters: absorb the rest of a delimiter run. -/
def splitRunsSkip : Str → List Str
  | [] => [[]]
  | c :: rest =>
    if isJobDelim c then splitRunsSkip rest
    else
      match splitRunsGo rest with
      | [] => [[c]]
      | seg :: segs => (c :: seg) :: segs

end

/-- `re.split(r'[\n\r•·]+', description)`: split on maximal runs of
newline/carriage-return/bullet characters (empty fragments only at the
two ends, as `re.split` with a `+`-quantified class produces). -/
def splitJobDelims (l : Str) : List Str := splitRunsGo l

/-- `re.sub(r'^[-*➢➣]\s*', '', clean_line)` (convert_jobs.py line 27):
drop one leading bullet character and the whitespace run after it. -/
def stripLeadingBullet (l : Str) : Str :=
  match l with
  | c :: rest =>
    if c = '-' || c = '*' || c = '➢' || c = '➣' then rest.dropWhile isPyWs
    else c :: rest
  | [] => []

/-- `extract_skills_heuristic` (convert_jobs.py lines 10-31): `"N/A"` for
a falsy description; otherwise split, keep stripped fragments longer
than 3 characters (de-bulleted after the length check), and join the
first 10 with `", "`. -/
def extract_skills_heuristic (description : Str) : Str :=
  if description = [] then "N/A".data
  else
    let lines := splitJobDelims description
    let skills := lines.foldl
      (fun skills line =>
        let clean_line := pyStrip line
        if 3 < clean_line.length then skills ++ [stripLeadingBullet clean_line]
        else skills)
      []
    List.intercalate ", ".data (skills.take 10)

/-- The claim's characterization of the kept fragments (claim C9 /
spec section 6): stripped fragments of trimmed length over 3, in order,
after bullet cleanup. -/
def skillFragments (description : Str) : List Str :=
  (splitJobDelims description).filterMap
    (fun line =>
      let clean_line := pyStrip line
      if 3 < clean_line.length then some (stripLeadingBullet clean_line)
      else none)

/-- The fence wrapping named by claim C4: ```` ```json ```` before the
text and ```` ``` ```` after it. -/
def wrapInJsonFence (s : Str) : Str :=
  fence_json_marker ++ s ++ fence_marker

/-! ## Sanity evaluations of the embedding -/

example : pyStrip "  ab  ".data = "ab".data := by decide
example : keepLine "....................".data = false := by decide
example : keepLine "ab".data = true := by decide
example : keepLine " ".data = false := by decide
example : clean_page "a\n\nhello".data = ["a".data, "hello".data] := by decide
example : extract_pages [none, some "".data, some "hi".data] = "hi\n".data := by decide
example : json_loads_ok "\x7b\x7d".data = true := by decide
example : json_loads_ok "```json\x7b\x7d".data = false := by decide
example : json_loads_ok "not json".data = false := by decide
example : json_loads_ok "\x7b\"a\": 1\x7d".data = true := by decide
example : json_loads_ok " [1, 2.5e3, \"x\\n\", true, null, -Infinity] ".data = true := by decide
example : json_loads_ok "\x7b\"a\": 1,\x7d".data = false := by decide
example : json_loads_ok "".data = false := by decide
example : json_loads_ok "\x7b\"a\": \x7b\"b\": [\x7b\x7d, []]\x7d\x7d".data = true := by decide
example : normalizeRaw "```json\n\x7b\x7d\n```".data = "\x7b\x7d".data := by decide
example : normalizeRaw "  \x7b\x7d  ".data = "\x7b\x7d".data := by decide
example : normalizeRaw "```\x7b\x7d```".data = "\x7b\x7d".data := by decide
example : splitJobDelims "a\n\nb•c".data = ["a".data, "b".data, "c".data] := by decide
example : splitJobDelims "\nab\r".data = ["".data, "ab".data, "".data] := by decide
example : splitJobDelims "".data = ["".data] := by decide
example : extract_skills_heuristic "".data = "N/A".data := by decide
example : extract_skills_heuristic "- Python skills\nC++\nTeamwork".data =
    "Python skills, Teamwork".data := by decide
example : stripLeadingBullet "- abc".data = "abc".data := by decide

/-! ## Helper lemmas -/

theorem dropWhile_self_append {α} {p : α → Bool} {a : List α} (b : List α)
    (h : a.dropWhile p = a) (hne : a ≠ []) : (a ++ b).dropWhile p = a ++ b := by
  rw [List.dropWhile_append, h]
  simp [hne]

theorem lstrip_self_append {a : Str} (b : Str) (h : lstrip a = a) (hne : a ≠ []) :
    lstrip (a ++ b) = a ++ b :=
  dropWhile_self_append b h hne

theorem rstrip_append_self {b : Str} (a : Str) (h : rstrip b = b) (hne : b ≠ []) :
    rstrip (a ++ b) = a ++ b := by
  have h' : b.reverse.dropWhile isPyWs = b.reverse := by
    have := congrArg List.reverse h
    simpa [rstrip] using this
  unfold rstrip
  rw [List.reverse_append, dropWhile_self_append a.reverse h' (by simpa using hne)]
  simp

theorem dropWhile_idem {α} (p : α → Bool) (l : List α) :
    (l.dropWhile p).dropWhile p = l.dropWhile p := by
  induction l with
  | nil => rfl
  | cons c cs ih =>
    by_cases hc : p c
    · simp [List.dropWhile_cons, hc, ih]
    · simp [List.dropWhile_cons, hc]

theorem rstrip_front (l : Str) : rstrip l <+: l := by
  apply List.reverse_suffix.mp
  rw [rstrip, List.reverse_reverse]
  exact ⟨l.reverse.takeWhile isPyWs, List.takeWhile_append_dropWhile ..⟩

theorem head_eq_of_front {α} {x y : List α} (h : x <+: y) (hx : x ≠ []) :
    y.head? = x.head? := by
  obtain ⟨t, rfl⟩ := h
  cases x with
  | nil => exact absurd rfl hx
  | cons c cs => rfl

theorem head_not_ws_of_lstrip_fixed {c : Char} {cs : Str}
    (h : lstrip (c :: cs) = c :: cs) : isPyWs c = false := by
  by_cases hc : isPyWs c
  · exfalso
    rw [lstrip, List.dropWhile_cons, if_pos hc] at h
    have hlen := congrArg List.length h
    have hle : (cs.dropWhile isPyWs).length ≤ cs.length :=
      (List.dropWhile_sublist isPyWs).length_le
    simp at hlen
    omega
  · simpa using hc

theorem rstrip_idem (l : Str) : rstrip (rstrip l) = rstrip l := by
  unfold rstrip
  rw [List.reverse_reverse, dropWhile_idem]

theorem lstrip_idem (l : Str) : lstrip (lstrip l) = lstrip l :=
  dropWhile_idem ..

theorem lstrip_rstrip_lstrip (l : Str) : lstrip (rstrip (lstrip l)) = rstrip (lstrip l) := by
  cases hm : rstrip (lstrip l) with
  | nil => rfl
  | cons c cs =>
    have hfront : rstrip (lstrip l) <+: lstrip l := rstrip_front (lstrip l)
    have hhead : (lstrip l).head? = some c := by
      rw [head_eq_of_front hfront (by rw [hm]; exact List.cons_ne_nil c cs), hm]
      rfl
    have hself : lstrip (lstrip l) = lstrip l := lstrip_idem l
    have hc : isPyWs c = false := by
      cases hl : lstrip l with
      | nil => rw [hl] at hhead; exact absurd hhead (by simp)
      | cons d ds =>
        rw [hl] at hhead
        have hd : d = c := by simpa using hhead
        subst hd
        exact head_not_ws_of_lstrip_fixed (by rw [← hl]; exact hself)
    rw [lstrip, List.dropWhile_cons, if_neg (by simp [hc])]

theorem pyStrip_idem (l : Str) : pyStrip (pyStrip l) = pyStrip l := by
  unfold pyStrip
  rw [lstrip_rstrip_lstrip, rstrip_idem]

theorem pyStrip_bracketed {a m b : Str} (ha : lstrip a = a) (hb : rstrip b = b)
    (hna : a ≠ []) (hnb : b ≠ []) : pyStrip (a ++ m ++ b) = a ++ m ++ b := by
  unfold pyStrip
  rw [List.append_assoc, lstrip_self_append (m ++ b) ha hna, ← List.append_assoc,
    rstrip_append_self (a ++ m) hb hnb]

theorem extract_pages_foldl_acc (pages : List (Option Str)) (acc : Str) :
    pages.foldl
      (fun text pt =>
        match pt with
        | none => text
        | some page_text =>
          if page_text = [] then text
          else text ++ (List.intercalate ['\n'] (clean_page page_text) ++ ['\n']))
      acc = acc ++ (pages.map page_contribution).flatten := by
  induction pages generalizing acc with
  | nil => simp
  | cons p ps ih =>
    rw [List.foldl_cons, List.map_cons, List.flatten_cons]
    cases p with
    | none =>
      rw [ih]
      simp [page_contribution]
    | some t =>
      dsimp only
      by_cases ht : t = []
      · rw [if_pos ht, ih]
        simp [page_contribution, ht]
      · rw [if_neg ht, ih]
        simp [page_contribution, ht]

theorem extract_pages_eq_flatten (pages : List (Option Str)) :
    extract_pages pages = (pages.map page_contribution).flatten := by
  unfold extract_pages
  rw [extract_pages_foldl_acc]
  simp

theorem extract_pages_snoc (pages : List (Option Str)) (pt : Option Str) :
    extract_pages (pages ++ [pt]) = extract_pages pages ++ page_contribution pt := by
  rw [extract_pages_eq_flatten, extract_pages_eq_flatten, List.map_append,
    List.flatten_append]
  simp

/-! ## The claims -/

/-- Claim C1 (code bug evidence): an uploaded file with declared content
type `application/pdf` whose bytes make pypdf raise (here with message
"EOF marker not found") is answered with HTTP **500**, not the 400 the
claim states: the `except Exception` at main.py line 92 catches the
`HTTPException(400, "Error reading PDF: ...")` raised at line 73 and
re-raises it as
`HTTPException(500, "Failed to process PDF: 400: Error reading PDF: ...")`. -/
theorem c1_pdf_parse_failure_yields_500 :
    analyze_resume (fun _ => "[]".data) [] none "jd".data "application/pdf".data
      (Except.error "EOF marker not found".data) (fun _ => Except.ok "\x7b\x7d".data) =
    Response.err 500 "Failed to process PDF: 400: Error reading PDF: EOF marker not found".data := by
  decide

/-- Claim C8: a PDF whose pages all yield no extractable text (each
`extract_text()` returns `None` or the empty string) produces the empty
extracted string, and no error. -/
theorem c8_empty_pages_yield_empty_text (pages : List (Option Str))
    (h : ∀ pt ∈ pages, pt = none ∨ pt = some []) :
    extract_text_from_pdf (Except.ok pages) = Except.ok [] := by
  simp only [extract_text_from_pdf, Except.ok.injEq]
  rw [extract_pages_eq_flatten]
  apply List.flatten_eq_nil_iff.mpr
  intro x hx
  obtain ⟨pt, hpt, rfl⟩ := List.mem_map.mp hx
  rcases h pt hpt with rfl | rfl
  · rfl
  · rfl

/-- Witness for C8 at a concrete two-page PDF (one `None` page, one
empty-string page). -/
theorem c8_empty_pages_yield_empty_text_witness :
    extract_text_from_pdf (Except.ok [none, some []]) = Except.ok [] :=
  c8_empty_pages_yield_empty_text [none, some []] (by decide)

/-- Claim C6: a request whose uploaded file declares any content type
other than `application/pdf` is answered with HTTP 400 and the explicit
only-PDF message, regardless of the PDF bytes or anything later in the
pipeline (the theorem quantifies over every `pdf_parse` outcome,
including failures, so no PDF parsing is consulted). -/
theorem c6_non_pdf_content_type_rejected
    (dumps : List JobContextEntry → Str) (jobs_context : List JobContextEntry)
    (company_name : Option Str) (job_description : Str) (content_type : Str)
    (pdf_parse : Except Str (List (Option Str))) (model_call : Str → Except Str Str)
    (h : content_type ≠ "application/pdf".data) :
    analyze_resume dumps jobs_context company_name job_description content_type
      pdf_parse model_call =
    Response.err 400 "Invalid file type. Only PDF files (application/pdf) are supported. DOC/DOCX files are not supported.".data := by
  unfold analyze_resume
  rw [if_pos h]

/-- Witness for C6: `application/msword` with an unreadable PDF stream is
rejected with the 400 message (extraction is never reached). -/
theorem c6_non_pdf_content_type_rejected_witness :
    analyze_resume (fun _ => "[]".data) [] none "jd".data "application/msword".data
      (Except.error "broken".data) (fun _ => Except.ok "\x7b\x7d".data) =
    Response.err 400 "Invalid file type. Only PDF files (application/pdf) are supported. DOC/DOCX files are not supported.".data :=
  c6_non_pdf_content_type_rejected _ _ _ _ _ _ _ (by decide)

/-- Claim C5: when the external generate-content call raises (Python
exception text `msg`), the endpoint answers HTTP 503 and the detail is
`"AI Service Unavailable: " + str(e)` — in particular it contains the
original error text. -/
theorem c5_model_failure_yields_503
    (dumps : List JobContextEntry → Str) (jobs_context : List JobContextEntry)
    (company_name : Option Str) (job_description : Str)
    (pages : List (Option Str)) (model_call : Str → Except Str Str) (msg : Str)
    (h : model_call (build_prompt (dumps (jobs_context.take 50)) company_name
      job_description (extract_pages pages)) = Except.error msg) :
    analyze_resume dumps jobs_context company_name job_description
      "application/pdf".data (Except.ok pages) model_call =
      Response.err 503 ("AI Service Unavailable: ".data ++ msg) ∧
    ∃ pre post, "AI Service Unavailable: ".data ++ msg = pre ++ msg ++ post := by
  refine ⟨?_, "AI Service Unavailable: ".data, [], by simp⟩
  unfold analyze_resume
  rw [if_neg (by simp)]
  simp only [extract_text_from_pdf]
  rw [h]

/-- Witness for C5 at a concrete simulated network failure. -/
theorem c5_model_failure_yields_503_witness :
    analyze_resume (fun _ => "[]".data) [] none "jd".data "application/pdf".data
      (Except.ok []) (fun _ => Except.error "Network unreachable".data) =
      Response.err 503 ("AI Service Unavailable: ".data ++ "Network unreachable".data) ∧
    ∃ pre post,
      "AI Service Unavailable: ".data ++ "Network unreachable".data =
        pre ++ "Network unreachable".data ++ post :=
  c5_model_failure_yields_503 _ _ _ _ _ _ _ rfl

/-- Claim C3: whenever the model call succeeds but its output, after
fence stripping and whitespace trimming, is not valid JSON, the endpoint
answers HTTP 500 with the one fixed message
"AI returned invalid JSON format." (the `json.JSONDecodeError` is caught
at main.py line 180 and never propagated). -/
theorem c3_invalid_json_yields_fixed_500
    (dumps : List JobContextEntry → Str) (jobs_context : List JobContextEntry)
    (company_name : Option Str) (job_description : Str)
    (pages : List (Option Str)) (model_call : Str → Except Str Str) (raw : Str)
    (hcall : model_call (build_prompt (dumps (jobs_context.take 50)) company_name
      job_description (extract_pages pages)) = Except.ok raw)
    (hjson : json_loads_ok (normalizeRaw raw) = false) :
    analyze_resume dumps jobs_context company_name job_description
      "application/pdf".data (Except.ok pages) model_call =
      Response.err 500 "AI returned invalid JSON format.".data := by
  unfold analyze_resume
  rw [if_neg (by simp)]
  simp only [extract_text_from_pdf]
  rw [hcall]
  simp [json_loads, hjson]

/-- Witness for C3: the model answering the non-JSON text "not json"
yields exactly the fixed 500. -/
theorem c3_invalid_json_yields_fixed_500_witness :
    analyze_resume (fun _ => "[]".data) [] none "jd".data "application/pdf".data
      (Except.ok []) (fun _ => Except.ok "not json".data) =
      Response.err 500 "AI returned invalid JSON format.".data :=
  c3_invalid_json_yields_fixed_500 _ _ _ _ _ _ _ rfl (by decide)

theorem keepLine_ratio_iff {line : Str} (h : 0 < (pyStrip line).length) :
    10 * (line.filter isAlnumAscii).length > 3 * (pyStrip line).length ↔
    ((line.filter isAlnumAscii).length : ℚ) / ((pyStrip line).length : ℚ) > 3 / 10 := by
  rw [gt_iff_lt, gt_iff_lt,
    div_lt_div_iff₀ (by norm_num : (0 : ℚ) < 10) (by exact_mod_cast h)]
  constructor
  · intro h1
    have h2 : ((3 * (pyStrip line).length : ℕ) : ℚ) <
        ((10 * (line.filter isAlnumAscii).length : ℕ) : ℚ) := by exact_mod_cast h1
    push_cast at h2
    linarith
  · intro h1
    have h2 : ((3 * (pyStrip line).length : ℕ) : ℚ) <
        ((10 * (line.filter isAlnumAscii).length : ℕ) : ℚ) := by push_cast; linarith
    exact_mod_cast h2

theorem keepLine_true_iff (line : Str) :
    keepLine line = true ↔
      0 < (pyStrip line).length ∧
        (((line.filter isAlnumAscii).length : ℚ) / ((pyStrip line).length : ℚ) > 3 / 10 ∨
          (pyStrip line).length < 5) := by
  unfold keepLine
  by_cases h : 0 < (pyStrip line).length
  · rw [if_pos h]
    simp only [Bool.or_eq_true, decide_eq_true_eq]
    rw [keepLine_ratio_iff h]
    exact ⟨fun hor => ⟨h, hor⟩, fun hand => hand.2⟩
  · rw [if_neg h]
    simp [h]

/-- Claim C2, amended: a line of a page's text is retained **iff its
trimmed length is positive** and (its alphanumeric-to-trimmed-length
ratio exceeds 0.3 or its trimmed length is under 5).  The claim's reading
that lines of trimmed length 0 are retained is false (see
`c2_blank_line_dropped`): the `total_chars > 0` guard at main.py line 63
silently drops whitespace-only and empty lines. -/
theorem c2_line_retention_characterization (page_text line : Str) :
    line ∈ clean_page page_text ↔
      line ∈ page_text.splitOn '\n' ∧ 0 < (pyStrip line).length ∧
        (((line.filter isAlnumAscii).length : ℚ) / ((pyStrip line).length : ℚ) > 3 / 10 ∨
          (pyStrip line).length < 5) := by
  unfold clean_page
  rw [List.mem_filter, keepLine_true_iff]

/-- Claim C2, counterexample: the single-space line has trimmed length 0
(under 5), is a line of its page, yet is **dropped** by the extractor's
filter — refuting "every line with trimmed length under 5 (including 0)
is retained". -/
theorem c2_blank_line_dropped :
    " ".data ∈ (" ".data : Str).splitOn '\n' ∧ (pyStrip " ".data).length < 5 ∧
      " ".data ∉ clean_page " ".data := by decide

theorem skills_foldl_acc (lines : List Str) (acc : List Str) :
    lines.foldl
      (fun skills line =>
        let clean_line := pyStrip line
        if 3 < clean_line.length then skills ++ [stripLeadingBullet clean_line]
        else skills)
      acc =
    acc ++ lines.filterMap
      (fun line =>
        let clean_line := pyStrip line
        if 3 < clean_line.length then some (stripLeadingBullet clean_line)
        else none) := by
  induction lines generalizing acc with
  | nil => simp
  | cons l ls ih =>
    rw [List.foldl_cons, List.filterMap_cons]
    dsimp only
    by_cases h : 3 < (pyStrip l).length
    · rw [if_pos h, if_pos h, ih]
      simp
    · rw [if_neg h, if_neg h, ih]

/-- Claim C9: the skill heuristic of the conversion utility returns
"N/A" on an empty description, and otherwise joins with `", "` exactly
the first 10 fragments obtained by splitting on newline/bullet runs and
keeping (de-bulleted) stripped fragments of length over 3 — so at most
10 fragments are ever joined. -/
theorem c9_skill_heuristic_characterization (description : Str) :
    extract_skills_heuristic description =
      (if description = [] then "N/A".data
       else List.intercalate ", ".data ((skillFragments description).take 10)) ∧
    ((skillFragments description).take 10).length ≤ 10 := by
  constructor
  · unfold extract_skills_heuristic skillFragments
    by_cases h : description = []
    · rw [if_pos h, if_pos h]
    · rw [if_neg h, if_neg h]
      dsimp only
      rw [skills_foldl_acc]
      simp
  · rw [List.length_take]
    exact Nat.min_le_left _ _

theorem extract_pages_trailing_newline (pages : List (Option Str)) :
    (∃ t, some t ∈ pages ∧ t ≠ []) → ∃ u, extract_pages pages = u ++ ['\n'] := by
  induction pages using List.reverseRecOn with
  | nil =>
    rintro ⟨t, hmem, _⟩
    simp at hmem
  | append_singleton l p ihl =>
    rintro ⟨t, hmem, htne⟩
    rw [extract_pages_snoc]
    by_cases hp : page_contribution p = []
    · rw [hp, List.append_nil]
      apply ihl
      rcases List.mem_append.mp hmem with h1 | h1
      · exact ⟨t, h1, htne⟩
      · exfalso
        have hpt : p = some t := Eq.symm (by simpa using h1)
        subst hpt
        simp [page_contribution, htne] at hp
    · obtain ⟨X, hX⟩ : ∃ X, page_contribution p = X ++ ['\n'] := by
        cases p with
        | none => exact absurd rfl hp
        | some t2 =>
          by_cases ht2 : t2 = []
          · exact absurd (by simp [page_contribution, ht2]) hp
          · exact ⟨List.intercalate ['\n'] (clean_page t2), by simp [page_contribution, ht2]⟩
      rw [hX, ← List.append_assoc]
      exact ⟨_, rfl⟩

/-- Claim C10: appending a page with non-empty raw text appends the
newline-joined retained lines plus one extra newline — a page whose
lines are all dropped still contributes exactly `"\n"` — and the
extractor's output ends with a newline whenever some page had non-empty
raw text. -/
theorem c10_page_contribution_and_trailing_newline :
    (∀ (pages : List (Option Str)) (t : Str), t ≠ [] →
      extract_pages (pages ++ [some t]) =
        extract_pages pages ++ (List.intercalate ['\n'] (clean_page t) ++ ['\n']) ∧
      (clean_page t = [] →
        extract_pages (pages ++ [some t]) = extract_pages pages ++ ['\n'])) ∧
    (∀ pages : List (Option Str), (∃ t, some t ∈ pages ∧ t ≠ []) →
      ∃ u, extract_pages pages = u ++ ['\n']) := by
  constructor
  · intro pages t ht
    rw [extract_pages_snoc]
    constructor
    · simp [page_contribution, ht]
    · intro hclean
      simp [page_contribution, ht, hclean, List.intercalate]
  · exact extract_pages_trailing_newline

/-- Witness for C10: a page of separator noise ("........", all lines
dropped) contributes exactly one newline after a normal page, and the
two-page output ends with a newline. -/
theorem c10_page_contribution_and_trailing_newline_witness :
    extract_pages [some "ab".data, some "........".data] =
      extract_pages [some "ab".data] ++ ['\n'] ∧
    ∃ u, extract_pages [some "ab".data, some "........".data] = u ++ ['\n'] := by
  constructor
  · exact (c10_page_contribution_and_trailing_newline.1 [some "ab".data]
      "........".data (by decide)).2 (by decide)
  · exact c10_page_contribution_and_trailing_newline.2 _
      ⟨"ab".data, by decide, by decide⟩

theorem infix_extend_left {x b : Str} (a : Str) (h : x <:+: b) : x <:+: a ++ b := by
  obtain ⟨s, t, rfl⟩ := h
  exact ⟨a ++ s, t, by simp⟩

theorem infix_front_segment (x b : Str) : x <:+: x ++ b :=
  ⟨[], b, by simp⟩

theorem infix_extend_right {x a : Str} (b : Str) (h : x <:+: a) : x <:+: a ++ b := by
  obtain ⟨s, t, rfl⟩ := h
  exact ⟨s, t ++ b, by simp⟩

/-- Claim C7: the constructed prompt contains the JSON serialization of
exactly the first 50 job-context entries (in original order, as the one
`dumps` argument), the job description verbatim, the resume text
verbatim, the literal "Not Specified" when the company name is absent,
and the literal annotation markers `<<<`, `~~~` and `+++` in its
instruction section. -/
theorem c7_prompt_contents (dumps : List JobContextEntry → Str)
    (jobs_context : List JobContextEntry) (company_name : Option Str)
    (job_description resume_text : Str) :
    dumps (jobs_context.take 50) <:+:
      build_prompt (dumps (jobs_context.take 50)) company_name job_description resume_text ∧
    job_description <:+:
      build_prompt (dumps (jobs_context.take 50)) company_name job_description resume_text ∧
    resume_text <:+:
      build_prompt (dumps (jobs_context.take 50)) company_name job_description resume_text ∧
    (company_name = none →
      "Not Specified".data <:+:
        build_prompt (dumps (jobs_context.take 50)) company_name job_description resume_text) ∧
    "<<<".data <:+:
      build_prompt (dumps (jobs_context.take 50)) company_name job_description resume_text ∧
    "~~~".data <:+:
      build_prompt (dumps (jobs_context.take 50)) company_name job_description resume_text ∧
    "+++".data <:+:
      build_prompt (dumps (jobs_context.take 50)) company_name job_description resume_text := by
  unfold build_prompt
  simp only [List.append_assoc]
  refine ⟨?_, ?_, ?_, ?_, ?_, ?_, ?_⟩
  · exact infix_extend_left _ (infix_front_segment _ _)
  · exact infix_extend_left _ (infix_extend_left _ (infix_extend_left _ (infix_extend_left _
      (infix_extend_left _ (infix_front_segment _ _)))))
  · exact infix_extend_left _ (infix_extend_left _ (infix_extend_left _ (infix_extend_left _
      (infix_extend_left _ (infix_extend_left _ (infix_extend_left _
        (infix_front_segment _ _)))))))
  · rintro rfl
    exact infix_extend_left _ (infix_extend_left _ (infix_extend_left _
      (infix_front_segment ("Not Specified".data) _)))
  · apply infix_extend_left
    apply infix_extend_left
    apply infix_extend_left
    apply infix_extend_left
    apply infix_extend_left
    apply infix_extend_left
    apply infix_extend_left
    apply infix_extend_left
    simp only [promptPart5, String.data_append, List.append_assoc]
    repeat
      first
        | exact infix_extend_right _ (by decide)
        | apply infix_extend_left
  · apply infix_extend_left
    apply infix_extend_left
    apply infix_extend_left
    apply infix_extend_left
    apply infix_extend_left
    apply infix_extend_left
    apply infix_extend_left
    apply infix_extend_left
    simp only [promptPart5, String.data_append, List.append_assoc]
    repeat
      first
        | exact infix_extend_right _ (by decide)
        | apply infix_extend_left
  · apply infix_extend_left
    apply infix_extend_left
    apply infix_extend_left
    apply infix_extend_left
    apply infix_extend_left
    apply infix_extend_left
    apply infix_extend_left
    apply infix_extend_left
    simp only [promptPart5, String.data_append, List.append_assoc]
    repeat
      first
        | exact infix_extend_right _ (by decide)
        | apply infix_extend_left

theorem fence_front_pyStrip (r : Str) :
    fence_marker <+: pyStrip (fence_marker ++ r) := by
  unfold pyStrip
  rw [lstrip_self_append r (by decide) (by decide)]
  unfold rstrip
  rw [List.reverse_append, List.dropWhile_append]
  by_cases hr : (r.reverse.dropWhile isPyWs).isEmpty
  · rw [if_pos hr]
    rw [show fence_marker.reverse.dropWhile isPyWs = fence_marker.reverse from by decide,
      List.reverse_reverse]
  · rw [if_neg hr, List.reverse_append, List.reverse_reverse]
    exact List.prefix_append _ _

/-- Claim C4, amended: wrapping model output `s` in a ```` ```json ````
fence normalizes to the same parsed result as bare `s`, **provided** the
trimmed `s` neither starts nor ends with a ```` ``` ```` marker of its
own.  Without that proviso the claim is false (see
`c4_fence_wrap_differs`): the normalizer runs its two leading-marker
checks in sequence on the once-stripped text, so inner fence markers that
are exposed (or hidden) by the outer fence change the parse input. -/
theorem c4_fence_normalization_agrees (s : Str)
    (h1 : ¬ fence_marker <+: pyStrip s)
    (h2 : ¬ fence_marker <:+ pyStrip s) :
    normalizeRaw (wrapInJsonFence s) = normalizeRaw s ∧
    json_loads (normalizeRaw (wrapInJsonFence s)) = json_loads (normalizeRaw s) := by
  have key : normalizeRaw (wrapInJsonFence s) = normalizeRaw s := by
    by_cases hsb : fence_marker <+: (s ++ fence_marker)
    · obtain ⟨tl, htl⟩ := hsb
      have hfm : fence_marker = ['`', '`', '`'] := by decide
      rcases s with _ | ⟨c1, _ | ⟨c2, _ | ⟨c3, rest⟩⟩⟩
      · decide
      · rw [hfm] at htl
        simp only [List.cons_append, List.nil_append, List.cons.injEq] at htl
        obtain ⟨hc1, -⟩ := htl
        subst hc1
        decide
      · rw [hfm] at htl
        simp only [List.cons_append, List.nil_append, List.cons.injEq] at htl
        obtain ⟨hc1, hc2, -⟩ := htl
        subst hc1
        subst hc2
        decide
      · rw [hfm] at htl
        simp only [List.cons_append, List.nil_append, List.cons.injEq] at htl
        obtain ⟨hc1, hc2, hc3, -⟩ := htl
        subst hc1
        subst hc2
        subst hc3
        exfalso
        apply h1
        rw [show ('`' :: '`' :: '`' :: rest : Str) = fence_marker ++ rest from by
          rw [hfm]
          rfl]
        exact fence_front_pyStrip rest
    · simp only [normalizeRaw, wrapInJsonFence]
      have hps : pyStrip (fence_json_marker ++ s ++ fence_marker) =
          fence_json_marker ++ s ++ fence_marker :=
        pyStrip_bracketed (by decide) (by decide) (by decide) (by decide)
      rw [hps]
      have hpre1 : fence_json_marker.isPrefixOf
          (fence_json_marker ++ s ++ fence_marker) = true := by
        rw [List.isPrefixOf_iff_prefix, List.append_assoc]
        exact List.prefix_append _ _
      rw [if_pos hpre1]
      have hdrop : (fence_json_marker ++ s ++ fence_marker).drop 7 = s ++ fence_marker := by
        rw [List.append_assoc]
        exact List.drop_left' (by decide)
      rw [hdrop]
      rw [if_neg (show ¬(fence_marker.isPrefixOf (s ++ fence_marker) = true) from by
        simp only [List.isPrefixOf_iff_prefix]
        exact hsb)]
      have hsuf : fence_marker.isSuffixOf (s ++ fence_marker) = true := by
        rw [List.isSuffixOf_iff_suffix]
        exact List.suffix_append _ _
      rw [if_pos hsuf]
      have htake : (s ++ fence_marker).take ((s ++ fence_marker).length - 3) = s := by
        have hlen : (s ++ fence_marker).length - 3 = s.length := by
          simp [List.length_append, show fence_marker.length = 3 from by decide]
        rw [hlen]
        exact List.take_left _ _
      rw [htake]
      rw [if_neg (show ¬(fence_json_marker.isPrefixOf (pyStrip s) = true) from by
        simp only [List.isPrefixOf_iff_prefix]
        intro hh
        exact h1 (List.IsPrefix.trans (by decide : fence_marker <+: fence_json_marker) hh))]
      rw [if_neg (show ¬(fence_marker.isPrefixOf (pyStrip s) = true) from by
        simp only [List.isPrefixOf_iff_prefix]
        exact h1)]
      rw [if_neg (show ¬(fence_marker.isSuffixOf (pyStrip s) = true) from by
        simp only [List.isSuffixOf_iff_suffix]
        exact h2)]
      exact (pyStrip_idem s).symm
  exact ⟨key, by rw [key]⟩

/-- Claim C4, counterexample: for `s = " ```json{}"` (a leading space,
then an inner fence marker and an object) the fenced and unfenced inputs
normalize to different parse inputs — the unfenced one parses to `{}`
while the fenced one fails to parse — refuting "for every model-output
string s". -/
theorem c4_fence_wrap_differs :
    json_loads (normalizeRaw (wrapInJsonFence " ```json\x7b\x7d".data)) ≠
      json_loads (normalizeRaw " ```json\x7b\x7d".data) := by decide

/-- Witness for the amended C4 at the concrete JSON object `{"a": 1}`. -/
theorem c4_fence_normalization_agrees_witness :
    normalizeRaw (wrapInJsonFence "\x7b\"a\": 1\x7d".data) =
      normalizeRaw "\x7b\"a\": 1\x7d".data ∧
    json_loads (normalizeRaw (wrapInJsonFence "\x7b\"a\": 1\x7d".data)) =
      json_loads (normalizeRaw "\x7b\"a\": 1\x7d".data) :=
  c4_fence_normalization_agrees _ (by decide) (by decide)

end ResumeReviewer
